import Mathlib

/-!
Shallow embedding of the bawei V2 job orchestration core:
the background service worker handlers (handleV2StartJob,
handleV2ChannelUpdate, handleV2StopJob, broadcastJobState) and the
job data manager (storeJobData, getJobData, storeJobState, getJobState,
markJobStopped, cleanExpiredData, limitStoredJobs).

Modelling conventions:
  - chrome.storage.local is a Store of two association lists keyed by
    jobId (the source prefixes keys with bawei_v2_job_ / bawei_v2_state_;
    the prefixes are injective and elided here, each record family keeps
    its own list).
  - A Record<ChannelId, ChannelRuntimeState> is a total-by-construction
    object, modelled as ChannelId -> Option ChannelRuntimeState so that
    the number of present keys is observable.
  - JavaScript truthiness tests on numbers (tab ids, stoppedAt) treat 0
    and undefined alike; an Option Nat is truthy when getD 0 is nonzero.
  - Date.now() values are passed in explicitly as Nat parameters.
  - Effects (chrome.tabs.create, chrome.tabs.sendMessage) are returned
    as an explicit effect list.
-/

namespace Bawei

inductive ChannelId where
  | csdn
  | tencentCloudDev
  | cnblogs
  | oschina
  | woshipm
  | mowen
  | sspai
  | baijiahao
  | toutiao
  | feishuDocs
deriving DecidableEq

/-- String form of a ChannelId, as the TypeScript string-literal union. -/
def channelIdStr : ChannelId → String
  | .csdn => "csdn"
  | .tencentCloudDev => "tencent-cloud-dev"
  | .cnblogs => "cnblogs"
  | .oschina => "oschina"
  | .woshipm => "woshipm"
  | .mowen => "mowen"
  | .sspai => "sspai"
  | .baijiahao => "baijiahao"
  | .toutiao => "toutiao"
  | .feishuDocs => "feishu-docs"

/-- Membership test against the supported channel set, returning the typed
id: models the runtime check ALL_CHANNELS.includes(c) on a string. -/
def parseChannel (s : String) : Option ChannelId :=
  if s = "csdn" then some .csdn
  else if s = "tencent-cloud-dev" then some .tencentCloudDev
  else if s = "cnblogs" then some .cnblogs
  else if s = "oschina" then some .oschina
  else if s = "woshipm" then some .woshipm
  else if s = "mowen" then some .mowen
  else if s = "sspai" then some .sspai
  else if s = "baijiahao" then some .baijiahao
  else if s = "toutiao" then some .toutiao
  else if s = "feishu-docs" then some .feishuDocs
  else none

inductive PublishAction where
  | draft
  | publish
deriving DecidableEq

inductive ChannelStage where
  | init
  | openEntry
  | detectLogin
  | fillSourceUrl
  | fillTitle
  | fillContent
  | saveDraft
  | submitPublish
  | confirmSuccess
  | waitingUser
  | done
deriving DecidableEq

inductive ChannelResultStatus where
  | notStarted
  | running
  | success
  | failed
  | waitingUser
deriving DecidableEq

structure ArticlePayload where
  title : String
  contentHtml : String
  sourceUrl : String
  author : Option String
  publishTime : Option String
  coverUrl : Option String
deriving DecidableEq

structure PublishJob where
  jobId : String
  createdAt : Nat
  action : PublishAction
  article : ArticlePayload
  channels : List ChannelId
  sourceTabId : Option Nat
  stoppedAt : Option Nat
deriving DecidableEq

structure ChannelRuntimeState where
  channelId : ChannelId
  status : ChannelResultStatus
  stage : Option ChannelStage
  userMessage : Option String
  userSuggestion : Option String
  devDetails : Option String
  updatedAt : Nat
  tabId : Option Nat
deriving DecidableEq

/-- The per-job channel state record, Record of ChannelId to state. -/
def StateMap : Type := ChannelId → Option ChannelRuntimeState

/-- The ALL_CHANNELS constant of the background script. -/
def ALL_CHANNELS : List ChannelId :=
  [.csdn, .tencentCloudDev, .cnblogs, .oschina, .woshipm,
   .mowen, .sspai, .baijiahao, .toutiao, .feishuDocs]

theorem mem_ALL_CHANNELS (c : ChannelId) : c ∈ ALL_CHANNELS := by
  cases c <;> simp [ALL_CHANNELS]

instance : DecidableEq StateMap := fun m1 m2 =>
  decidable_of_iff (∀ c ∈ ALL_CHANNELS, m1 c = m2 c)
    ⟨fun h => funext fun c => h c (mem_ALL_CHANNELS c), fun h c _ => congrFun h c⟩

/-- Number of channel keys present in a state record object. -/
def entryCount (m : StateMap) : Nat :=
  (ALL_CHANNELS.filter (fun c => (m c).isSome)).length

/-- JavaScript truthiness of an optional number: undefined and 0 are falsy. -/
def optTruthy (o : Option Nat) : Bool :=
  decide (o.getD 0 ≠ 0)

/-- The nowState helper: a fresh not-started channel state at time t. -/
def nowState (channelId : ChannelId) (t : Nat) : ChannelRuntimeState :=
  { channelId := channelId
    status := .notStarted
    stage := none
    userMessage := none
    userSuggestion := none
    devDetails := none
    updatedAt := t
    tabId := none }

/-- The buildInitialState helper: every supported channel not-started.
The source calls Date.now() once per channel within a tick; a single
timestamp t stands for those calls. -/
def buildInitialState (t : Nat) : StateMap :=
  fun c => some (nowState c t)

/-! ## Storage layer (article-data-manager.ts) -/

/-- Association-list lookup, first entry with the key wins:
chrome.storage.local.get(key). -/
def alookup {β : Type} : List (String × β) → String → Option β
  | [], _ => none
  | (k, v) :: t, i => if k = i then some v else alookup t i

/-- Association-list upsert preserving key position:
chrome.storage.local.set of one key. -/
def aset {β : Type} : List (String × β) → String → β → List (String × β)
  | [], k, v => [(k, v)]
  | (k1, v1) :: t, k, v => if k1 = k then (k, v) :: t else (k1, v1) :: aset t k v

structure Store where
  jobs : List (String × PublishJob)
  states : List (String × StateMap)

def EXPIRY_TIME : Nat := 24 * 60 * 60 * 1000

def MAX_STORED_JOBS : Nat := 20

/-- The expiry test of cleanExpiredData: createdAt truthy and
now - createdAt > EXPIRY_TIME (Nat subtraction truncates at 0 exactly as
a negative JavaScript difference fails the comparison). -/
def isExpired (now : Nat) (job : PublishJob) : Bool :=
  decide (job.createdAt ≠ 0 ∧ EXPIRY_TIME < now - job.createdAt)

/-- The keys of the expired jobs collected by a sweep at time now. -/
def expiredIds (now : Nat) (s : Store) : List String :=
  (s.jobs.filter (fun p => isExpired now p.2)).map Prod.fst

/-- The cleanExpiredData sweep: collects the keys of expired jobs plus
their state keys, removes them, and returns the number of pushed keys. -/
def cleanExpiredData (now : Nat) (s : Store) : Store × Nat :=
  (⟨s.jobs.filter (fun p => !decide (p.1 ∈ expiredIds now s)),
    s.states.filter (fun p => !decide (p.1 ∈ expiredIds now s))⟩,
   2 * (expiredIds now s).length)

/-- Ordering used by limitStoredJobs: newest first, by createdAt. -/
def jobNewer (a b : String × PublishJob) : Prop :=
  b.2.createdAt ≤ a.2.createdAt

instance : DecidableRel jobNewer := fun a b => Nat.decLe b.2.createdAt a.2.createdAt

instance : IsTotal (String × PublishJob) jobNewer :=
  ⟨fun a b => Nat.le_total b.2.createdAt a.2.createdAt⟩

instance : IsTrans (String × PublishJob) jobNewer :=
  ⟨fun _ _ _ hab hbc => Nat.le_trans hbc hab⟩

/-- The keys evicted by the capacity limiter: everything after the
first MAX_STORED_JOBS entries of the newest-first sort. -/
def evictIds (s : Store) : List String :=
  ((s.jobs.insertionSort jobNewer).drop MAX_STORED_JOBS).map Prod.fst

/-- The limitStoredJobs capacity enforcement: sort stored jobs newest
first (a stable sort, as Array.prototype.sort with the createdAt
comparator), keep the first MAX_STORED_JOBS, delete the rest together
with their state records. -/
def limitStoredJobs (s : Store) : Store :=
  if (s.jobs.insertionSort jobNewer).length ≤ MAX_STORED_JOBS then s
  else
    ⟨s.jobs.filter (fun p => !decide (p.1 ∈ evictIds s)),
     s.states.filter (fun p => !decide (p.1 ∈ evictIds s))⟩

/-- The storeJobData operation: upsert the job record, then run the
expiry sweep and the capacity limiter. -/
def storeJobData (now : Nat) (job : PublishJob) (s : Store) : Store :=
  limitStoredJobs (cleanExpiredData now ⟨aset s.jobs job.jobId job, s.states⟩).1

/-- The getJobData read: the stored job or null. -/
def getJobData (s : Store) (jobId : String) : Option PublishJob :=
  alookup s.jobs jobId

/-- The storeJobState write. -/
def storeJobState (jobId : String) (st : StateMap) (s : Store) : Store :=
  ⟨s.jobs, aset s.states jobId st⟩

/-- The getJobState read. -/
def getJobState (s : Store) (jobId : String) : Option StateMap :=
  alookup s.states jobId

/-! ## Orchestrator runtime (background service worker) -/

/-- In-memory runtime plus durable storage: the three module-level Maps
of the background script together with chrome.storage.local. -/
structure World where
  store : Store
  jobStateCache : String → Option StateMap
  jobIdToSourceTabId : String → Option Nat
  tabIdToContext : Nat → Option (String × ChannelId)

/-- Observable external actions the handlers perform. -/
inductive Effect where
  | createTab (channelId : ChannelId) (url : String) (active : Bool)
  | broadcast (tabId : Nat) (jobId : String)
      (channels : Option (List ChannelId)) (state : StateMap)
  | stopSignal (tabId : Nat) (jobId : String)
deriving DecidableEq

def Effect.isBroadcast : Effect → Bool
  | .broadcast _ _ _ _ => true
  | _ => false

/-- The broadcastJobState helper as its emitted messages: requires a
truthy source tab id and a cached state, then sends the full snapshot
(jobId, channels of the stored job, state). -/
def broadcastEffects (w : World) (jobId : String) : List Effect :=
  match w.jobIdToSourceTabId jobId, w.jobStateCache jobId with
  | some tid, some st =>
      if tid = 0 then []
      else [.broadcast tid jobId ((getJobData w.store jobId).map PublishJob.channels) st]
  | _, _ => []

/-- The static entryUrls table of handleV2StartJob. -/
def entryUrls : ChannelId → String
  | .csdn => "https://mp.csdn.net/mp_blog/creation/editor"
  | .tencentCloudDev => "https://cloud.tencent.com/developer/article/write"
  | .cnblogs => "https://i.cnblogs.com/posts/edit"
  | .oschina => "https://www.oschina.net/blog/write"
  | .woshipm => "https://www.woshipm.com/writing"
  | .mowen => "https://note.mowen.cn/editor"
  | .sspai => "https://sspai.com/write"
  | .baijiahao => "https://baijiahao.baidu.com/builder/rc/edit?type=news&is_from_cms=1"
  | .toutiao => "https://mp.toutiao.com/profile_v4/graphic/publish"
  | .feishuDocs => "https://wuxinxuexi.feishu.cn/drive/folder/PyWAfSFwrlMgiydvlHectMn2nSd"

/-- Channel selection of handleV2StartJob: a present nonempty channels
array, else ALL_CHANNELS; then filtered to the supported set. -/
def channelsToRun (chs : Option (List String)) : List ChannelId :=
  (match chs with
   | some l => if l.isEmpty then ALL_CHANNELS.map channelIdStr else l
   | none => ALL_CHANNELS.map channelIdStr).filterMap parseChannel

/-- Outcome of one chrome.tabs.create call: the promise rejected, or a
tab was created (tabId 0 standing for a falsy tab.id). -/
inductive SpawnOutcome where
  | threw
  | created (tabId : Nat)
deriving DecidableEq

def SpawnOutcome.isThrew : SpawnOutcome → Bool
  | .threw => true
  | .created _ => false

structure StartJobRequest where
  action : PublishAction
  article : ArticlePayload
  channels : Option (List String)
  focusChannel : Option String

structure StartJobResponse where
  success : Bool
  jobId : Option String
  error : Option String
deriving DecidableEq

/-- Environment of one handleV2StartJob run: the generated jobId, the
Date.now() values, the sender tab, and the per-channel spawn outcome. -/
structure StartEnv where
  jobId : String
  now : Nat
  senderTabId : Option Nat
  spawn : ChannelId → SpawnOutcome
  spawnTime : ChannelId → Nat

/-- The per-channel running-state transition applied after a successful
tab creation. -/
def mkRunning (prev : ChannelRuntimeState) (t tid : Nat) : ChannelRuntimeState :=
  { prev with status := .running, stage := some .openEntry,
              updatedAt := t, tabId := some tid }

/-- One step of the spawn loop on the state map: a channel whose tab was
created with a truthy id is marked running/openEntry. The map entry for a
selected channel is always present, buildInitialState being total. -/
def spawnStep (env : StartEnv) (m : StateMap) (c : ChannelId) : StateMap :=
  match env.spawn c with
  | .created tid =>
      if tid = 0 then m
      else
        match m c with
        | some prev => Function.update m c (some (mkRunning prev (env.spawnTime c) tid))
        | none => m
  | .threw => m

/-- The state-map mutations of the whole spawn loop. -/
def spawnFold (env : StartEnv) (chans : List ChannelId) (init : StateMap) : StateMap :=
  chans.foldl (spawnStep env) init

/-- The tabIdToContext registrations of the spawn loop. -/
def spawnCtxFold (env : StartEnv) (chans : List ChannelId)
    (ctx : Nat → Option (String × ChannelId)) : Nat → Option (String × ChannelId) :=
  chans.foldl (fun f c =>
    match env.spawn c with
    | .created tid =>
        if tid = 0 then f else Function.update f tid (some (env.jobId, c))
    | .threw => f) ctx

/-- The PublishJob record assembled and persisted by handleV2StartJob. -/
def startJobRecord (msg : StartJobRequest) (env : StartEnv) : PublishJob :=
  ⟨env.jobId, env.now, msg.action, msg.article, channelsToRun msg.channels,
   env.senderTabId, none⟩

/-- The chrome.tabs.create calls issued by the spawn loop, the focus
channel opened in the foreground. -/
def startCreateEffects (msg : StartJobRequest) : List Effect :=
  (channelsToRun msg.channels).map fun c =>
    Effect.createTab c (entryUrls c) (decide (msg.focusChannel = some (channelIdStr c)))

/-- The jobIdToSourceTabId registration: only when the sender tab id is
truthy. -/
def startSourceMap (env : StartEnv) (w : World) : String → Option Nat :=
  if optTruthy env.senderTabId
  then Function.update w.jobIdToSourceTabId env.jobId env.senderTabId
  else w.jobIdToSourceTabId

/-- The world after the pre-spawn persists (job record plus pristine
initial state map) and the spawn loop, when some tab creation rejected:
Promise.all rejects into the outer catch, so the final storeJobState and
the broadcast are skipped; the cache still holds the map object mutated
in place by the callbacks that did succeed. -/
def startFailWorld (msg : StartJobRequest) (env : StartEnv) (w : World) : World :=
  ⟨storeJobState env.jobId (buildInitialState env.now)
     (storeJobData env.now (startJobRecord msg env) w.store),
   Function.update w.jobStateCache env.jobId
     (some (spawnFold env (channelsToRun msg.channels) (buildInitialState env.now))),
   startSourceMap env w,
   spawnCtxFold env (channelsToRun msg.channels) w.tabIdToContext⟩

/-- The world after a fully successful handleV2StartJob: the post-spawn
map is cached and persisted on top of the pre-spawn persists. -/
def startOkWorld (msg : StartJobRequest) (env : StartEnv) (w : World) : World :=
  ⟨storeJobState env.jobId
     (spawnFold env (channelsToRun msg.channels) (buildInitialState env.now))
     (storeJobState env.jobId (buildInitialState env.now)
       (storeJobData env.now (startJobRecord msg env) w.store)),
   Function.update w.jobStateCache env.jobId
     (some (spawnFold env (channelsToRun msg.channels) (buildInitialState env.now))),
   startSourceMap env w,
   spawnCtxFold env (channelsToRun msg.channels) w.tabIdToContext⟩

/-- The handleV2StartJob handler. Validation failure replies with an
error and touches nothing. Otherwise the job and the initial state map
are persisted, tabs are opened for every selected channel, and on full
spawn success the final map is persisted and broadcast. If any tab
creation rejects, the reply is a failure and the final persist and
broadcast are skipped. -/
def handleV2StartJob (msg : StartJobRequest) (env : StartEnv) (w : World) :
    StartJobResponse × World × List Effect :=
  if msg.article.title = "" ∨ msg.article.contentHtml = "" ∨ msg.article.sourceUrl = "" then
    (⟨false, none, some "Missing required fields: title/contentHtml/sourceUrl"⟩, w, [])
  else if (channelsToRun msg.channels).any (fun c => (env.spawn c).isThrew) then
    (⟨false, none, some "spawn failed"⟩, startFailWorld msg env w, startCreateEffects msg)
  else
    (⟨true, some env.jobId, none⟩, startOkWorld msg env w,
     startCreateEffects msg ++ broadcastEffects (startOkWorld msg env w) env.jobId)

/-! ## ChannelUpdate handler -/

structure ChannelPatch where
  status : Option ChannelResultStatus
  stage : Option ChannelStage
  userMessage : Option String
  userSuggestion : Option String
  devDetails : Option String
deriving DecidableEq

def emptyPatch : ChannelPatch := ⟨none, none, none, none, none⟩

structure ChannelUpdateMsg where
  jobId : String
  channelId : ChannelId
  patch : Option ChannelPatch

structure AckResponse where
  success : Bool
  error : Option String
deriving DecidableEq

structure UpdateEnv where
  now : Nat
  senderTabId : Option Nat

/-- The merge of a patch over the previous channel state: field-wise
overwrite, then channelId, updatedAt and tabId forced (the spread order
of the source makes any channelId/updatedAt/tabId inside the patch
inert). -/
def applyPatch (prev : ChannelRuntimeState) (p : ChannelPatch) (channelId : ChannelId)
    (now : Nat) (senderTabId : Option Nat) : ChannelRuntimeState :=
  { channelId := channelId
    status := p.status.getD prev.status
    stage := p.stage.or prev.stage
    userMessage := p.userMessage.or prev.userMessage
    userSuggestion := p.userSuggestion.or prev.userSuggestion
    devDetails := p.devDetails.or prev.devDetails
    updatedAt := now
    tabId := if optTruthy senderTabId then senderTabId else prev.tabId }

/-- State resolution of handleV2ChannelUpdate: cache, else storage, else
a fresh default map. -/
def resolveCurrent (w : World) (jobId : String) (now : Nat) : StateMap :=
  ((w.jobStateCache jobId).or (getJobState w.store jobId)).getD (buildInitialState now)

/-- The handleV2ChannelUpdate handler: acknowledge-and-discard when the
job is stopped, otherwise merge the patch into the named channel only,
persist the full map, and broadcast. -/
def handleV2ChannelUpdate (msg : ChannelUpdateMsg) (env : UpdateEnv) (w : World) :
    AckResponse × World × List Effect :=
  if msg.jobId = "" then (⟨false, some "Missing jobId/channelId"⟩, w, [])
  else if optTruthy ((getJobData w.store msg.jobId).bind PublishJob.stoppedAt) then
    (⟨true, none⟩, w, [])
  else
    let current := resolveCurrent w msg.jobId env.now
    let prev := (current msg.channelId).getD (nowState msg.channelId env.now)
    let next := applyPatch prev (msg.patch.getD emptyPatch) msg.channelId env.now env.senderTabId
    let current2 := Function.update current msg.channelId (some next)
    let w2 : World :=
      ⟨storeJobState msg.jobId current2 w.store,
       Function.update w.jobStateCache msg.jobId (some current2),
       w.jobIdToSourceTabId, w.tabIdToContext⟩
    (⟨true, none⟩, w2, broadcastEffects w2 msg.jobId)

/-! ## Stop handler -/

/-- The handleV2StopJob handler: unknown job is an error; an already
stopped job is acknowledged with no effect; otherwise markJobStopped
writes stoppedAt back through storeJobData and a stop signal is sent to
every channel tab recorded in the resolved state. No broadcast is
emitted. -/
def handleV2StopJob (jobId : String) (now : Nat) (w : World) :
    AckResponse × World × List Effect :=
  if jobId = "" then (⟨false, some "Missing jobId"⟩, w, [])
  else
    match getJobData w.store jobId with
    | none => (⟨false, some "Job not found"⟩, w, [])
    | some job =>
      if optTruthy job.stoppedAt then (⟨true, none⟩, w, [])
      else
        let store1 := storeJobData now { job with stoppedAt := some now } w.store
        let st := (w.jobStateCache jobId).or (getJobState store1 jobId)
        let fx := ALL_CHANNELS.filterMap fun c =>
          match st.bind (fun m => (m c).bind ChannelRuntimeState.tabId) with
          | some tid => if tid = 0 then none else some (Effect.stopSignal tid jobId)
          | none => none
        (⟨true, none⟩, ⟨store1, w.jobStateCache, w.jobIdToSourceTabId, w.tabIdToContext⟩, fx)

/-! ## Association-list and storage lemmas -/

theorem alookup_aset_self {β : Type} (l : List (String × β)) (k : String) (v : β) :
    alookup (aset l k v) k = some v := by
  induction l with
  | nil => simp [aset, alookup]
  | cons h t ih =>
      by_cases hk : h.1 = k
      · simp [aset, hk, alookup]
      · simp only [aset]
        rw [if_neg hk]
        simp [alookup, hk, ih]

theorem alookup_aset_ne {β : Type} (l : List (String × β)) (k k2 : String) (v : β)
    (h : k2 ≠ k) : alookup (aset l k v) k2 = alookup l k2 := by
  induction l with
  | nil => simp [aset, alookup, Ne.symm h]
  | cons hd t ih =>
      by_cases hk : hd.1 = k
      · simp [aset, hk, alookup, Ne.symm h, ih]
      · simp only [aset]
        rw [if_neg hk]
        simp [alookup, ih]

/-- The sweep is the identity when no stored job is expired. -/
theorem cleanExpiredData_id (now : Nat) (s : Store)
    (h : ∀ p ∈ s.jobs, isExpired now p.2 = false) :
    (cleanExpiredData now s).1 = s := by
  unfold cleanExpiredData
  have hnil : expiredIds now s = [] := by
    unfold expiredIds
    rw [List.filter_eq_nil_iff.mpr (fun a ha => by simp [h a ha])]
    rfl
  simp [hnil]

/-- The capacity limiter is the identity at or below the cap. -/
theorem limitStoredJobs_id (s : Store) (h : s.jobs.length ≤ MAX_STORED_JOBS) :
    limitStoredJobs s = s := by
  simp [limitStoredJobs, List.length_insertionSort, h]

/-- storeJobData reduces to the plain upsert when nothing is expired and
the result is within the capacity cap. -/
theorem storeJobData_eq_aset (now : Nat) (job : PublishJob) (s : Store)
    (hexp : ∀ p ∈ aset s.jobs job.jobId job, isExpired now p.2 = false)
    (hlen : (aset s.jobs job.jobId job).length ≤ MAX_STORED_JOBS) :
    storeJobData now job s = ⟨aset s.jobs job.jobId job, s.states⟩ := by
  unfold storeJobData
  rw [cleanExpiredData_id now ⟨aset s.jobs job.jobId job, s.states⟩ hexp]
  exact limitStoredJobs_id _ hlen

/-- A state map with every channel present has all ten entries. -/
theorem entryCount_eq_ten (m : StateMap) (h : ∀ c, (m c).isSome) :
    entryCount m = 10 := by
  unfold entryCount
  rw [List.filter_eq_self.mpr (fun a _ => h a)]
  rfl

/-! ## C4: post-stop ChannelUpdate is an acknowledged no-op -/

/-- C4: a ChannelUpdate for a job whose stoppedAt is set replies with
success and leaves the whole world untouched: no channel state is
mutated, nothing is persisted, and no broadcast is emitted. -/
theorem channelUpdate_post_stop_noop
    (msg : ChannelUpdateMsg) (env : UpdateEnv) (w : World) (job : PublishJob) (t : Nat)
    (hid : msg.jobId ≠ "")
    (hjob : getJobData w.store msg.jobId = some job)
    (hstopped : job.stoppedAt = some t) (ht : t ≠ 0) :
    handleV2ChannelUpdate msg env w = (⟨true, none⟩, w, []) := by
  unfold handleV2ChannelUpdate
  rw [if_neg hid, hjob]
  simp [hstopped, optTruthy, ht]

/-- Concrete run exercising channelUpdate_post_stop_noop. -/
theorem channelUpdate_post_stop_noop_witness :
    ("j3" : String) ≠ "" ∧
    handleV2ChannelUpdate
      ⟨"j3", .csdn, some ⟨some .failed, none, none, none, none⟩⟩ ⟨301, some 9⟩
      ⟨⟨[("j3", ⟨"j3", 50, .publish, ⟨"T", "x", "https://x", none, none, none⟩,
          [.csdn], some 7, some 200⟩)], []⟩,
        fun _ => none, fun _ => none, fun _ => none⟩ =
      (⟨true, none⟩,
       ⟨⟨[("j3", ⟨"j3", 50, .publish, ⟨"T", "x", "https://x", none, none, none⟩,
          [.csdn], some 7, some 200⟩)], []⟩,
        fun _ => none, fun _ => none, fun _ => none⟩, []) :=
  ⟨by decide,
   channelUpdate_post_stop_noop _ _ _
     ⟨"j3", 50, .publish, ⟨"T", "x", "https://x", none, none, none⟩,
      [.csdn], some 7, some 200⟩ 200
     (by decide) (by decide) rfl (by decide)⟩

/-! ## C5: RequestStop is idempotent -/

/-- C5: stopping an existing, not yet stopped job succeeds and records
stoppedAt; a second RequestStop also replies success while leaving the
whole world exactly as the first call left it, and performs no side
effects (no stop signals re-sent). Hypotheses keep the embedded hygiene
passes of storeJobData neutral: nothing in the upserted store is expired
at the stop time and the store is within the capacity cap. -/
theorem handleV2StopJob_already_stopped
    (jobId : String) (now : Nat) (w : World) (job : PublishJob) (t : Nat)
    (hid : jobId ≠ "")
    (hjob : getJobData w.store jobId = some job)
    (hstop : job.stoppedAt = some t) (ht : t ≠ 0) :
    handleV2StopJob jobId now w = (⟨true, none⟩, w, []) := by
  unfold handleV2StopJob
  rw [if_neg hid, hjob]
  simp [optTruthy, hstop, ht]

theorem requestStop_idempotent
    (w : World) (jobId : String) (job : PublishJob) (now1 now2 : Nat)
    (hid : jobId ≠ "")
    (hkey : job.jobId = jobId)
    (hjob : getJobData w.store jobId = some job)
    (hnotstopped : optTruthy job.stoppedAt = false)
    (hnow : now1 ≠ 0)
    (hexp : ∀ p ∈ aset w.store.jobs jobId { job with stoppedAt := some now1 },
      isExpired now1 p.2 = false)
    (hlen : (aset w.store.jobs jobId { job with stoppedAt := some now1 }).length
      ≤ MAX_STORED_JOBS) :
    (handleV2StopJob jobId now1 w).1.success = true ∧
    getJobData (handleV2StopJob jobId now1 w).2.1.store jobId =
      some { job with stoppedAt := some now1 } ∧
    handleV2StopJob jobId now2 (handleV2StopJob jobId now1 w).2.1 =
      (⟨true, none⟩, (handleV2StopJob jobId now1 w).2.1, []) := by
  subst hkey
  have hw1 : (handleV2StopJob job.jobId now1 w).2.1 =
      ⟨⟨aset w.store.jobs job.jobId { job with stoppedAt := some now1 }, w.store.states⟩,
       w.jobStateCache, w.jobIdToSourceTabId, w.tabIdToContext⟩ := by
    unfold handleV2StopJob
    rw [if_neg hid, hjob]
    simp only [hnotstopped, Bool.false_eq_true, if_false]
    rw [storeJobData_eq_aset now1 { job with stoppedAt := some now1 } w.store hexp hlen]
  have hget : getJobData (handleV2StopJob job.jobId now1 w).2.1.store job.jobId =
      some { job with stoppedAt := some now1 } := by
    rw [hw1]
    exact alookup_aset_self _ _ _
  refine ⟨?_, hget, ?_⟩
  · unfold handleV2StopJob
    rw [if_neg hid, hjob]
    simp [hnotstopped]
  · exact handleV2StopJob_already_stopped job.jobId now2 _
      { job with stoppedAt := some now1 } now1 hid hget rfl hnow

/-- Concrete run exercising requestStop_idempotent. -/
theorem requestStop_idempotent_witness :
    (("j3" : String) ≠ "" ∧
     getJobData ⟨[("j3", ⟨"j3", 50, .publish, ⟨"T", "x", "https://x", none, none, none⟩,
        [.csdn], some 7, none⟩)], []⟩ "j3" =
       some ⟨"j3", 50, .publish, ⟨"T", "x", "https://x", none, none, none⟩,
        [.csdn], some 7, none⟩) ∧
    (handleV2StopJob "j3" 200
      ⟨⟨[("j3", ⟨"j3", 50, .publish, ⟨"T", "x", "https://x", none, none, none⟩,
          [.csdn], some 7, none⟩)], []⟩,
        fun _ => none, fun _ => none, fun _ => none⟩).1.success = true ∧
    handleV2StopJob "j3" 300
      (handleV2StopJob "j3" 200
        ⟨⟨[("j3", ⟨"j3", 50, .publish, ⟨"T", "x", "https://x", none, none, none⟩,
            [.csdn], some 7, none⟩)], []⟩,
          fun _ => none, fun _ => none, fun _ => none⟩).2.1 =
      (⟨true, none⟩,
       (handleV2StopJob "j3" 200
        ⟨⟨[("j3", ⟨"j3", 50, .publish, ⟨"T", "x", "https://x", none, none, none⟩,
            [.csdn], some 7, none⟩)], []⟩,
          fun _ => none, fun _ => none, fun _ => none⟩).2.1, []) := by
  have h := requestStop_idempotent
    ⟨⟨[("j3", ⟨"j3", 50, .publish, ⟨"T", "x", "https://x", none, none, none⟩,
        [.csdn], some 7, none⟩)], []⟩,
      fun _ => none, fun _ => none, fun _ => none⟩
    "j3" ⟨"j3", 50, .publish, ⟨"T", "x", "https://x", none, none, none⟩,
      [.csdn], some 7, none⟩ 200 300
    (by decide) (by decide) (by decide) (by decide) (by decide) (by decide) (by decide)
  exact ⟨⟨by decide, by decide⟩, h.1, h.2.2⟩

/-! ## C6: ChannelUpdate is channel-local -/

/-- C6: a ChannelUpdate applied to a non-stopped job replies success and
produces a map (persisted and cached) that differs from the resolved
previous map only at the named channel: every other channel's state is
exactly its previous value, whatever the patch contains. -/
theorem channelUpdate_isolation
    (msg : ChannelUpdateMsg) (env : UpdateEnv) (w : World)
    (hid : msg.jobId ≠ "")
    (hnotstopped : optTruthy ((getJobData w.store msg.jobId).bind PublishJob.stoppedAt)
      = false) :
    (handleV2ChannelUpdate msg env w).1 = ⟨true, none⟩ ∧
    ∃ m2, getJobState (handleV2ChannelUpdate msg env w).2.1.store msg.jobId = some m2 ∧
      (handleV2ChannelUpdate msg env w).2.1.jobStateCache msg.jobId = some m2 ∧
      ∀ c, c ≠ msg.channelId → m2 c = resolveCurrent w msg.jobId env.now c := by
  have hres : handleV2ChannelUpdate msg env w =
      (⟨true, none⟩,
       ⟨storeJobState msg.jobId
          (Function.update (resolveCurrent w msg.jobId env.now) msg.channelId
            (some (applyPatch
              ((resolveCurrent w msg.jobId env.now msg.channelId).getD
                (nowState msg.channelId env.now))
              (msg.patch.getD emptyPatch) msg.channelId env.now env.senderTabId)))
          w.store,
        Function.update w.jobStateCache msg.jobId
          (some (Function.update (resolveCurrent w msg.jobId env.now) msg.channelId
            (some (applyPatch
              ((resolveCurrent w msg.jobId env.now msg.channelId).getD
                (nowState msg.channelId env.now))
              (msg.patch.getD emptyPatch) msg.channelId env.now env.senderTabId)))),
        w.jobIdToSourceTabId, w.tabIdToContext⟩,
       broadcastEffects
        ⟨storeJobState msg.jobId
          (Function.update (resolveCurrent w msg.jobId env.now) msg.channelId
            (some (applyPatch
              ((resolveCurrent w msg.jobId env.now msg.channelId).getD
                (nowState msg.channelId env.now))
              (msg.patch.getD emptyPatch) msg.channelId env.now env.senderTabId)))
          w.store,
         Function.update w.jobStateCache msg.jobId
          (some (Function.update (resolveCurrent w msg.jobId env.now) msg.channelId
            (some (applyPatch
              ((resolveCurrent w msg.jobId env.now msg.channelId).getD
                (nowState msg.channelId env.now))
              (msg.patch.getD emptyPatch) msg.channelId env.now env.senderTabId)))),
         w.jobIdToSourceTabId, w.tabIdToContext⟩
        msg.jobId) := by
    unfold handleV2ChannelUpdate
    rw [if_neg hid]
    simp only [hnotstopped, Bool.false_eq_true, if_false]
  rw [hres]
  exact ⟨rfl, _, alookup_aset_self _ _ _, Function.update_same _ _ _,
    fun c hc => Function.update_noteq hc _ _⟩

/-- Concrete run exercising channelUpdate_isolation. -/
theorem channelUpdate_isolation_witness :
    (("j3" : String) ≠ "" ∧
     optTruthy ((getJobData
       (⟨⟨[("j3", ⟨"j3", 50, .publish, ⟨"T", "x", "https://x", none, none, none⟩,
           [.csdn], some 7, none⟩)], []⟩,
         fun _ => none, fun _ => none, fun _ => none⟩ : World).store "j3").bind
       PublishJob.stoppedAt) = false) ∧
    ((handleV2ChannelUpdate ⟨"j3", .csdn, some ⟨some .failed, none, none, none, none⟩⟩
        ⟨301, some 9⟩
        ⟨⟨[("j3", ⟨"j3", 50, .publish, ⟨"T", "x", "https://x", none, none, none⟩,
            [.csdn], some 7, none⟩)], []⟩,
          fun _ => none, fun _ => none, fun _ => none⟩).1 = ⟨true, none⟩ ∧
     ∃ m2, getJobState (handleV2ChannelUpdate
        ⟨"j3", .csdn, some ⟨some .failed, none, none, none, none⟩⟩ ⟨301, some 9⟩
        ⟨⟨[("j3", ⟨"j3", 50, .publish, ⟨"T", "x", "https://x", none, none, none⟩,
            [.csdn], some 7, none⟩)], []⟩,
          fun _ => none, fun _ => none, fun _ => none⟩).2.1.store "j3" = some m2 ∧
      (handleV2ChannelUpdate
        ⟨"j3", .csdn, some ⟨some .failed, none, none, none, none⟩⟩ ⟨301, some 9⟩
        ⟨⟨[("j3", ⟨"j3", 50, .publish, ⟨"T", "x", "https://x", none, none, none⟩,
            [.csdn], some 7, none⟩)], []⟩,
          fun _ => none, fun _ => none, fun _ => none⟩).2.1.jobStateCache "j3" = some m2 ∧
      ∀ c, c ≠ ChannelId.csdn →
        m2 c = resolveCurrent
          ⟨⟨[("j3", ⟨"j3", 50, .publish, ⟨"T", "x", "https://x", none, none, none⟩,
              [.csdn], some 7, none⟩)], []⟩,
            fun _ => none, fun _ => none, fun _ => none⟩ "j3" 301 c) :=
  ⟨⟨by decide, by decide⟩,
   channelUpdate_isolation
     ⟨"j3", .csdn, some ⟨some .failed, none, none, none, none⟩⟩ ⟨301, some 9⟩
     ⟨⟨[("j3", ⟨"j3", 50, .publish, ⟨"T", "x", "https://x", none, none, none⟩,
         [.csdn], some 7, none⟩)], []⟩,
       fun _ => none, fun _ => none, fun _ => none⟩
     (by decide) (by decide)⟩

/-! ## C9: ChannelUpdate for an unknown jobId succeeds on a fresh map -/

/-- C9: a ChannelUpdate naming a jobId unknown to the cache and the
store replies success, builds the fresh default map over all ten
supported channels, applies the patch to the named channel, and persists
the result under that jobId. -/
theorem channelUpdate_unknown_job
    (msg : ChannelUpdateMsg) (env : UpdateEnv) (w : World)
    (hid : msg.jobId ≠ "")
    (hcache : w.jobStateCache msg.jobId = none)
    (hjob : getJobData w.store msg.jobId = none)
    (hstate : getJobState w.store msg.jobId = none) :
    (handleV2ChannelUpdate msg env w).1 = ⟨true, none⟩ ∧
    getJobState (handleV2ChannelUpdate msg env w).2.1.store msg.jobId =
      some (Function.update (buildInitialState env.now) msg.channelId
        (some (applyPatch (nowState msg.channelId env.now) (msg.patch.getD emptyPatch)
          msg.channelId env.now env.senderTabId))) ∧
    entryCount (Function.update (buildInitialState env.now) msg.channelId
        (some (applyPatch (nowState msg.channelId env.now) (msg.patch.getD emptyPatch)
          msg.channelId env.now env.senderTabId))) = 10 := by
  have hresolve : resolveCurrent w msg.jobId env.now = buildInitialState env.now := by
    unfold resolveCurrent
    rw [hcache, hstate]
    rfl
  have hnotstopped : optTruthy ((getJobData w.store msg.jobId).bind PublishJob.stoppedAt)
      = false := by
    rw [hjob]
    rfl
  refine ⟨?_, ?_, ?_⟩
  · unfold handleV2ChannelUpdate
    rw [if_neg hid]
    simp only [hnotstopped, Bool.false_eq_true, if_false]
  · unfold handleV2ChannelUpdate
    rw [if_neg hid]
    simp only [hnotstopped, Bool.false_eq_true, if_false]
    rw [hresolve]
    exact alookup_aset_self _ _ _
  · refine entryCount_eq_ten _ (fun c => ?_)
    by_cases hc : c = msg.channelId
    · subst hc
      rw [Function.update_same]
      rfl
    · rw [Function.update_noteq hc]
      rfl

/-- Concrete run exercising channelUpdate_unknown_job. -/
theorem channelUpdate_unknown_job_witness :
    (("jX" : String) ≠ "" ∧
     (⟨⟨[], []⟩, fun _ => none, fun _ => none, fun _ => none⟩ : World).jobStateCache "jX"
       = none) ∧
    ((handleV2ChannelUpdate ⟨"jX", .csdn, some ⟨some .running, none, none, none, none⟩⟩
        ⟨400, some 9⟩ ⟨⟨[], []⟩, fun _ => none, fun _ => none, fun _ => none⟩).1
      = ⟨true, none⟩ ∧
     getJobState (handleV2ChannelUpdate
        ⟨"jX", .csdn, some ⟨some .running, none, none, none, none⟩⟩
        ⟨400, some 9⟩ ⟨⟨[], []⟩, fun _ => none, fun _ => none, fun _ => none⟩).2.1.store "jX"
      = some (Function.update (buildInitialState 400) .csdn
          (some (applyPatch (nowState .csdn 400)
            ((some (⟨some .running, none, none, none, none⟩ : ChannelPatch)).getD emptyPatch)
            .csdn 400 (some 9)))) ∧
     entryCount (Function.update (buildInitialState 400) .csdn
          (some (applyPatch (nowState .csdn 400)
            ((some (⟨some .running, none, none, none, none⟩ : ChannelPatch)).getD emptyPatch)
            .csdn 400 (some 9)))) = 10) :=
  ⟨⟨by decide, rfl⟩,
   channelUpdate_unknown_job
     ⟨"jX", .csdn, some ⟨some .running, none, none, none, none⟩⟩ ⟨400, some 9⟩
     ⟨⟨[], []⟩, fun _ => none, fun _ => none, fun _ => none⟩
     (by decide) rfl rfl rfl⟩

/-! ## StartJob lemmas -/

theorem spawnStep_threw (env : StartEnv) (m : StateMap) (a : ChannelId)
    (hs : env.spawn a = .threw) : spawnStep env m a = m := by
  simp only [spawnStep, hs]

theorem spawnStep_created_zero (env : StartEnv) (m : StateMap) (a : ChannelId)
    (hs : env.spawn a = .created 0) : spawnStep env m a = m := by
  simp [spawnStep, hs]

theorem spawnStep_created (env : StartEnv) (m : StateMap) (a : ChannelId)
    (tid : Nat) (prev : ChannelRuntimeState)
    (hs : env.spawn a = .created tid) (htid : tid ≠ 0) (hprev : m a = some prev) :
    spawnStep env m a =
      Function.update m a (some (mkRunning prev (env.spawnTime a) tid)) := by
  simp only [spawnStep, hs, hprev]
  rw [if_neg htid]

/-- The spawn loop only ever leaves a channel at not_started or moves it
to running: every entry stays present with one of those two statuses. -/
theorem spawnFold_inv (env : StartEnv) (chans : List ChannelId) (m : StateMap)
    (h : ∀ c, ∃ st, m c = some st ∧
      (st.status = .notStarted ∨ st.status = .running)) :
    ∀ c, ∃ st, spawnFold env chans m c = some st ∧
      (st.status = .notStarted ∨ st.status = .running) := by
  induction chans generalizing m with
  | nil => exact h
  | cons a t ih =>
      refine ih (spawnStep env m a) (fun c => ?_)
      cases hs : env.spawn a with
      | threw =>
          rw [spawnStep_threw env m a hs]
          exact h c
      | created tid =>
          by_cases htid : tid = 0
          · subst htid
            rw [spawnStep_created_zero env m a hs]
            exact h c
          · obtain ⟨prev, hprev, _⟩ := h a
            rw [spawnStep_created env m a tid prev hs htid hprev]
            by_cases hc : c = a
            · subst hc
              exact ⟨mkRunning prev (env.spawnTime c) tid, Function.update_same _ _ _,
                Or.inr rfl⟩
            · rw [Function.update_noteq hc]
              exact h c

/-- The success-branch equation of handleV2StartJob. -/
theorem handleV2StartJob_eq_ok (msg : StartJobRequest) (env : StartEnv) (w : World)
    (hvalid : ¬(msg.article.title = "" ∨ msg.article.contentHtml = ""
      ∨ msg.article.sourceUrl = ""))
    (hnothrow : ((channelsToRun msg.channels).any fun c => (env.spawn c).isThrew)
      = false) :
    handleV2StartJob msg env w =
      (⟨true, some env.jobId, none⟩, startOkWorld msg env w,
       startCreateEffects msg ++ broadcastEffects (startOkWorld msg env w) env.jobId) := by
  unfold handleV2StartJob
  rw [if_neg hvalid]
  simp only [hnothrow, Bool.false_eq_true, if_false]

/-- The spawn-failure-branch equation of handleV2StartJob. -/
theorem handleV2StartJob_eq_fail (msg : StartJobRequest) (env : StartEnv) (w : World)
    (hvalid : ¬(msg.article.title = "" ∨ msg.article.contentHtml = ""
      ∨ msg.article.sourceUrl = ""))
    (hthrew : ((channelsToRun msg.channels).any fun c => (env.spawn c).isThrew)
      = true) :
    handleV2StartJob msg env w =
      (⟨false, none, some "spawn failed"⟩, startFailWorld msg env w,
       startCreateEffects msg) := by
  unfold handleV2StartJob
  rw [if_neg hvalid]
  simp only [hthrew, if_true]

/-! ## Concrete fixtures -/

def emptyWorld : World := ⟨⟨[], []⟩, fun _ => none, fun _ => none, fun _ => none⟩

def testArticle : ArticlePayload := ⟨"T", "<p>x</p>", "https://x", none, none, none⟩

def startEnv1 : StartEnv := ⟨"j1", 100, some 7, fun _ => .created 9, fun _ => 101⟩

def startEnvThrew : StartEnv :=
  ⟨"j2", 100, some 7, fun c => if c = .csdn then .threw else .created 9, fun _ => 101⟩

/-! ## C1: shape of the state map produced at start -/

/-- C1 as amended: for a valid StartJob, the state map persisted at
start has one entry for each of the ten supported channels, irrespective
of how many channels were selected; the initial map holds every channel
at not_started, and after the spawn loop every entry is not_started or
running, never success or failed. -/
theorem startJob_state_shape (msg : StartJobRequest) (env : StartEnv) (w : World)
    (hvalid : ¬(msg.article.title = "" ∨ msg.article.contentHtml = ""
      ∨ msg.article.sourceUrl = ""))
    (hnothrow : ((channelsToRun msg.channels).any fun c => (env.spawn c).isThrew)
      = false) :
    (handleV2StartJob msg env w).1 = ⟨true, some env.jobId, none⟩ ∧
    (∀ c, buildInitialState env.now c = some (nowState c env.now)) ∧
    entryCount (buildInitialState env.now) = 10 ∧
    ∃ m, getJobState (handleV2StartJob msg env w).2.1.store env.jobId = some m ∧
      entryCount m = 10 ∧
      ∀ c st, m c = some st → st.status = .notStarted ∨ st.status = .running := by
  rw [handleV2StartJob_eq_ok msg env w hvalid hnothrow]
  have hinv := spawnFold_inv env (channelsToRun msg.channels) (buildInitialState env.now)
    (fun c => ⟨nowState c env.now, rfl, Or.inl rfl⟩)
  refine ⟨rfl, fun c => rfl, entryCount_eq_ten _ (fun c => rfl), _,
    alookup_aset_self _ _ _, entryCount_eq_ten _ (fun c => ?_), fun c st hst => ?_⟩
  · obtain ⟨st, hst, _⟩ := hinv c
    rw [hst]
    rfl
  · obtain ⟨st2, hst2, hstatus⟩ := hinv c
    rw [hst] at hst2
    cases hst2
    exact hstatus

/-- Concrete run exercising startJob_state_shape. -/
theorem startJob_state_shape_witness :
    (¬((⟨.publish, testArticle, some ["csdn"], none⟩ : StartJobRequest).article.title = ""
      ∨ (⟨.publish, testArticle, some ["csdn"], none⟩ : StartJobRequest).article.contentHtml = ""
      ∨ (⟨.publish, testArticle, some ["csdn"], none⟩ : StartJobRequest).article.sourceUrl = "")) ∧
    ((handleV2StartJob ⟨.publish, testArticle, some ["csdn"], none⟩ startEnv1 emptyWorld).1
        = ⟨true, some startEnv1.jobId, none⟩ ∧
     (∀ c, buildInitialState startEnv1.now c = some (nowState c startEnv1.now)) ∧
     entryCount (buildInitialState startEnv1.now) = 10 ∧
     ∃ m, getJobState (handleV2StartJob ⟨.publish, testArticle, some ["csdn"], none⟩
          startEnv1 emptyWorld).2.1.store startEnv1.jobId = some m ∧
       entryCount m = 10 ∧
       ∀ c st, m c = some st → st.status = .notStarted ∨ st.status = .running) :=
  ⟨by decide,
   startJob_state_shape ⟨.publish, testArticle, some ["csdn"], none⟩ startEnv1 emptyWorld
     (by decide) (by decide)⟩

/-- C1 counterexample: a valid StartJob selecting a single channel
(k = 1) persists a state map with ten entries, not one. -/
theorem startJob_entry_count_counterexample :
    (channelsToRun (some ["csdn"])).length = 1 ∧
    ((getJobState (handleV2StartJob ⟨.publish, testArticle, some ["csdn"], none⟩
        startEnv1 emptyWorld).2.1.store "j1").map entryCount = some 10) := by
  decide

/-! ## C2: a spawn failure fails the whole StartJob -/

/-- C2 as amended: when the tab creation for any selected channel
rejects, handleV2StartJob replies with a failure instead of success; no
channel is ever marked failed (the persisted state map is the pristine
initial snapshot, every channel not_started), no broadcast is emitted,
and tab creation is still attempted for every selected channel. -/
theorem startJob_spawn_failure (msg : StartJobRequest) (env : StartEnv) (w : World)
    (hvalid : ¬(msg.article.title = "" ∨ msg.article.contentHtml = ""
      ∨ msg.article.sourceUrl = ""))
    (hthrew : ((channelsToRun msg.channels).any fun c => (env.spawn c).isThrew)
      = true) :
    (handleV2StartJob msg env w).1.success = false ∧
    getJobState (handleV2StartJob msg env w).2.1.store env.jobId =
      some (buildInitialState env.now) ∧
    (∀ c st, buildInitialState env.now c = some st → st.status = .notStarted) ∧
    (∀ e ∈ (handleV2StartJob msg env w).2.2, e.isBroadcast = false) ∧
    ∀ c ∈ channelsToRun msg.channels,
      ∃ a, Effect.createTab c (entryUrls c) a ∈ (handleV2StartJob msg env w).2.2 := by
  rw [handleV2StartJob_eq_fail msg env w hvalid hthrew]
  refine ⟨rfl, alookup_aset_self _ _ _, fun c st hst => ?_, fun e he => ?_, fun c hc => ?_⟩
  · cases hst
    rfl
  · obtain ⟨c, _, rfl⟩ := List.mem_map.mp he
    rfl
  · exact ⟨decide (msg.focusChannel = some (channelIdStr c)),
      List.mem_map_of_mem _ hc⟩

/-- Concrete run exercising startJob_spawn_failure. -/
theorem startJob_spawn_failure_witness :
    (((channelsToRun (some ["csdn", "cnblogs"])).any
        fun c => (startEnvThrew.spawn c).isThrew) = true) ∧
    ((handleV2StartJob ⟨.publish, testArticle, some ["csdn", "cnblogs"], none⟩
        startEnvThrew emptyWorld).1.success = false ∧
     getJobState (handleV2StartJob ⟨.publish, testArticle, some ["csdn", "cnblogs"], none⟩
        startEnvThrew emptyWorld).2.1.store startEnvThrew.jobId =
       some (buildInitialState startEnvThrew.now) ∧
     (∀ c st, buildInitialState startEnvThrew.now c = some st →
        st.status = .notStarted) ∧
     (∀ e ∈ (handleV2StartJob ⟨.publish, testArticle, some ["csdn", "cnblogs"], none⟩
        startEnvThrew emptyWorld).2.2, e.isBroadcast = false) ∧
     ∀ c ∈ channelsToRun (some ["csdn", "cnblogs"]),
       ∃ a, Effect.createTab c (entryUrls c) a ∈
         (handleV2StartJob ⟨.publish, testArticle, some ["csdn", "cnblogs"], none⟩
           startEnvThrew emptyWorld).2.2) :=
  ⟨by decide,
   startJob_spawn_failure ⟨.publish, testArticle, some ["csdn", "cnblogs"], none⟩
     startEnvThrew emptyWorld (by decide) (by decide)⟩

/-- C2 counterexample: one selected channel's tab creation rejects, yet
the response is a failure, not success, and the failing channel is left
at not_started rather than being marked failed. -/
theorem startJob_spawn_failure_counterexample :
    startEnvThrew.spawn .csdn = .threw ∧
    (handleV2StartJob ⟨.publish, testArticle, some ["csdn", "cnblogs"], none⟩
       startEnvThrew emptyWorld).1.success = false ∧
    ((getJobState (handleV2StartJob ⟨.publish, testArticle, some ["csdn", "cnblogs"], none⟩
        startEnvThrew emptyWorld).2.1.store "j2").map
      (fun m => (m ChannelId.csdn).map ChannelRuntimeState.status)) =
      some (some .notStarted) := by
  decide

/-! ## C10: channel defaulting and filtering -/

/-- C10: with channels omitted or empty the job fans out to all ten
supported channels; with an explicit nonempty list, unsupported ids are
silently dropped (the run set is the parseable sublist) and the call
still succeeds. -/
theorem startJob_channel_selection (msg : StartJobRequest) (env : StartEnv) (w : World)
    (l : List String)
    (hch : msg.channels = some l) (hne : l ≠ [])
    (hvalid : ¬(msg.article.title = "" ∨ msg.article.contentHtml = ""
      ∨ msg.article.sourceUrl = ""))
    (hnothrow : ((channelsToRun msg.channels).any fun c => (env.spawn c).isThrew)
      = false) :
    (handleV2StartJob msg env w).1.success = true ∧
    channelsToRun (some l) = l.filterMap parseChannel ∧
    channelsToRun none = ALL_CHANNELS ∧
    channelsToRun (some ([] : List String)) = ALL_CHANNELS ∧
    ALL_CHANNELS.length = 10 ∧
    ∀ c ∈ channelsToRun (some l),
      ∃ a, Effect.createTab c (entryUrls c) a ∈ (handleV2StartJob msg env w).2.2 := by
  rw [handleV2StartJob_eq_ok msg env w hvalid hnothrow]
  have hemp : l.isEmpty = false := by
    cases l with
    | nil => exact absurd rfl hne
    | cons a t => rfl
  refine ⟨rfl, ?_, by decide, by decide, rfl, fun c hc => ?_⟩
  · simp [channelsToRun, hemp]
  · refine ⟨decide (msg.focusChannel = some (channelIdStr c)), List.mem_append_left _ ?_⟩
    rw [← hch] at hc
    exact List.mem_map_of_mem _ hc

/-- Concrete run exercising startJob_channel_selection: one supported
and one bogus channel id. -/
theorem startJob_channel_selection_witness :
    ((⟨.publish, testArticle, some ["csdn", "bogus"], none⟩ : StartJobRequest).channels
      = some ["csdn", "bogus"] ∧ (["csdn", "bogus"] : List String) ≠ []) ∧
    ((handleV2StartJob ⟨.publish, testArticle, some ["csdn", "bogus"], none⟩
        startEnv1 emptyWorld).1.success = true ∧
     channelsToRun (some ["csdn", "bogus"]) = List.filterMap parseChannel ["csdn", "bogus"] ∧
     channelsToRun none = ALL_CHANNELS ∧
     channelsToRun (some ([] : List String)) = ALL_CHANNELS ∧
     ALL_CHANNELS.length = 10 ∧
     ∀ c ∈ channelsToRun (some ["csdn", "bogus"]),
       ∃ a, Effect.createTab c (entryUrls c) a ∈
         (handleV2StartJob ⟨.publish, testArticle, some ["csdn", "bogus"], none⟩
           startEnv1 emptyWorld).2.2) :=
  ⟨⟨rfl, by decide⟩,
   startJob_channel_selection ⟨.publish, testArticle, some ["csdn", "bogus"], none⟩
     startEnv1 emptyWorld ["csdn", "bogus"] rfl (by decide) (by decide) (by decide)⟩

/-! ## C3: which mutations are followed by a broadcast -/

/-- The broadcast helper fires exactly one full-snapshot message when
the source tab is registered and truthy and a state map is cached. -/
theorem broadcastEffects_eq (w : World) (jobId : String) (tid : Nat) (m : StateMap)
    (hsrc : w.jobIdToSourceTabId jobId = some tid)
    (hcache : w.jobStateCache jobId = some m) (htid : tid ≠ 0) :
    broadcastEffects w jobId =
      [.broadcast tid jobId ((getJobData w.store jobId).map PublishJob.channels) m] := by
  unfold broadcastEffects
  rw [hsrc, hcache]
  simp [htid]

theorem startSourceMap_self (env : StartEnv) (w : World) (tid : Nat)
    (hsender : env.senderTabId = some tid) (htid : tid ≠ 0) :
    startSourceMap env w env.jobId = some tid := by
  unfold startSourceMap
  have htruthy : optTruthy env.senderTabId = true := by
    rw [hsender]
    simp [optTruthy, htid]
  rw [if_pos htruthy, Function.update_same, hsender]

/-- Every effect handleV2StopJob emits is a stop signal: no run of the
stop handler, on any input, broadcasts job state. -/
theorem handleV2StopJob_no_broadcast (jobId : String) (now : Nat) (w : World) :
    ∀ e ∈ (handleV2StopJob jobId now w).2.2, e.isBroadcast = false := by
  intro e he
  unfold handleV2StopJob at he
  by_cases hid : jobId = ""
  · rw [if_pos hid] at he
    simp at he
  · rw [if_neg hid] at he
    cases hjob : getJobData w.store jobId with
    | none =>
        rw [hjob] at he
        simp at he
    | some job =>
        rw [hjob] at he
        by_cases hstop : optTruthy job.stoppedAt = true
        · simp only [hstop, if_true] at he
          simp at he
        · simp only [Bool.not_eq_true] at hstop
          simp only [hstop, Bool.false_eq_true, if_false] at he
          obtain ⟨c, -, hc⟩ := List.mem_filterMap.mp he
          split at hc
          · split at hc
            · cases hc
            · cases hc
              rfl
          · cases hc

/-- C3 as amended: a successful StartJob and a state-mutating
ChannelUpdate each push the full (jobId, channels, state map) snapshot
to the job's source tab whenever that tab is registered and truthy; a
RequestStop never broadcasts, it only sends per-channel stop signals. -/
theorem broadcast_after_mutations :
    (∀ (msg : StartJobRequest) (env : StartEnv) (w : World) (tid : Nat),
      ¬(msg.article.title = "" ∨ msg.article.contentHtml = ""
        ∨ msg.article.sourceUrl = "") →
      ((channelsToRun msg.channels).any fun c => (env.spawn c).isThrew) = false →
      env.senderTabId = some tid → tid ≠ 0 →
      (handleV2StartJob msg env w).2.2.filter Effect.isBroadcast =
        [Effect.broadcast tid env.jobId
          ((getJobData (startOkWorld msg env w).store env.jobId).map PublishJob.channels)
          (spawnFold env (channelsToRun msg.channels) (buildInitialState env.now))]) ∧
    (∀ (msg : ChannelUpdateMsg) (env : UpdateEnv) (w : World) (tid : Nat),
      msg.jobId ≠ "" →
      optTruthy ((getJobData w.store msg.jobId).bind PublishJob.stoppedAt) = false →
      w.jobIdToSourceTabId msg.jobId = some tid → tid ≠ 0 →
      ∃ m, (handleV2ChannelUpdate msg env w).2.1.jobStateCache msg.jobId = some m ∧
        (handleV2ChannelUpdate msg env w).2.2 =
          [Effect.broadcast tid msg.jobId
            ((getJobData (handleV2ChannelUpdate msg env w).2.1.store msg.jobId).map
              PublishJob.channels) m]) ∧
    (∀ (jobId : String) (now : Nat) (w : World),
      ∀ e ∈ (handleV2StopJob jobId now w).2.2, e.isBroadcast = false) := by
  refine ⟨?_, ?_, handleV2StopJob_no_broadcast⟩
  · intro msg env w tid hvalid hnothrow hsender htid
    rw [handleV2StartJob_eq_ok msg env w hvalid hnothrow]
    have hsrc : (startOkWorld msg env w).jobIdToSourceTabId env.jobId = some tid :=
      startSourceMap_self env w tid hsender htid
    have hcache : (startOkWorld msg env w).jobStateCache env.jobId =
        some (spawnFold env (channelsToRun msg.channels) (buildInitialState env.now)) :=
      Function.update_same _ _ _
    have hbe := broadcastEffects_eq (startOkWorld msg env w) env.jobId tid
      (spawnFold env (channelsToRun msg.channels) (buildInitialState env.now))
      hsrc hcache htid
    rw [List.filter_append, hbe]
    have hcfx : (startCreateEffects msg).filter Effect.isBroadcast = [] := by
      rw [List.filter_eq_nil_iff]
      intro e he
      obtain ⟨c, -, rfl⟩ := List.mem_map.mp he
      simp [Effect.isBroadcast]
    rw [hcfx]
    rfl
  · intro msg env w tid hid hnotstopped hsrc htid
    unfold handleV2ChannelUpdate
    rw [if_neg hid]
    simp only [hnotstopped, Bool.false_eq_true, if_false]
    exact ⟨_, Function.update_same _ _ _,
      broadcastEffects_eq _ _ tid _ hsrc (Function.update_same _ _ _) htid⟩

/-- Concrete run exercising broadcast_after_mutations: a successful
StartJob from source tab 7 emits exactly one full-snapshot broadcast. -/
theorem broadcast_after_mutations_witness :
    (¬((⟨.publish, testArticle, some ["csdn"], none⟩ : StartJobRequest).article.title = ""
       ∨ (⟨.publish, testArticle, some ["csdn"], none⟩ : StartJobRequest).article.contentHtml = ""
       ∨ (⟨.publish, testArticle, some ["csdn"], none⟩ : StartJobRequest).article.sourceUrl = "") ∧
     startEnv1.senderTabId = some 7 ∧ (7 : Nat) ≠ 0) ∧
    (handleV2StartJob ⟨.publish, testArticle, some ["csdn"], none⟩ startEnv1
        emptyWorld).2.2.filter Effect.isBroadcast =
      [Effect.broadcast 7 startEnv1.jobId
        ((getJobData (startOkWorld ⟨.publish, testArticle, some ["csdn"], none⟩ startEnv1
            emptyWorld).store startEnv1.jobId).map PublishJob.channels)
        (spawnFold startEnv1 (channelsToRun (some ["csdn"])) (buildInitialState startEnv1.now))] :=
  ⟨⟨by decide, rfl, by decide⟩,
   broadcast_after_mutations.1 ⟨.publish, testArticle, some ["csdn"], none⟩ startEnv1
     emptyWorld 7 (by decide) (by decide) rfl (by decide)⟩

/-- A state map with one running channel holding tab 9, as the cache of
a job mid-flight. -/
def stMap3 : StateMap :=
  Function.update (buildInitialState 50) .csdn (some (mkRunning (nowState .csdn 50) 51 9))

/-- A world holding one unstopped job whose source tab and cached state
are both registered, so a broadcast would be possible. -/
def stopWorld : World :=
  ⟨⟨[("j3", ⟨"j3", 50, .publish, testArticle, [.csdn], some 7, none⟩)], [("j3", stMap3)]⟩,
   Function.update (fun _ => none) "j3" (some stMap3),
   Function.update (fun _ => none) "j3" (some 7),
   fun _ => none⟩

/-- C3 counterexample: this RequestStop sets stoppedAt and sends a stop
signal, yet emits no broadcast at all, although the job's source tab and
cached state are registered. -/
theorem requestStop_broadcast_counterexample :
    ((getJobData (handleV2StopJob "j3" 200 stopWorld).2.1.store "j3").map
        PublishJob.stoppedAt = some (some 200)) ∧
    (handleV2StopJob "j3" 200 stopWorld).2.2 = [.stopSignal 9 "j3"] ∧
    (handleV2StopJob "j3" 200 stopWorld).2.2.filter Effect.isBroadcast = [] := by
  decide

/-! ## C8: TTL expiry sweep -/

theorem alookup_filter_removed {β : Type} (l : List (String × β)) (ids : List String)
    (k : String) (hk : k ∈ ids) :
    alookup (l.filter (fun p => !decide (p.1 ∈ ids))) k = none := by
  induction l with
  | nil => rfl
  | cons hd t ih =>
      by_cases hmem : hd.1 ∈ ids
      · have hd1 : decide (hd.1 ∈ ids) = true := decide_eq_true hmem
        simp only [List.filter_cons, hd1, Bool.not_true, Bool.false_eq_true, if_false]
        exact ih
      · have hne : hd.1 ≠ k := fun he => hmem (he ▸ hk)
        have hd1 : decide (hd.1 ∈ ids) = false := decide_eq_false hmem
        simp only [List.filter_cons, hd1, Bool.not_false, if_true]
        simp only [alookup, hne, if_false]
        exact ih

theorem keys_nodup_inj {β : Type} (l : List (String × β))
    (hnodup : (l.map Prod.fst).Nodup) :
    ∀ a ∈ l, ∀ b ∈ l, a.1 = b.1 → a = b := by
  induction l with
  | nil => intro a ha; cases ha
  | cons hd t ih =>
      rw [List.map_cons, List.nodup_cons] at hnodup
      intro a ha b hb hab
      cases List.mem_cons.mp ha with
      | inl ha1 =>
          cases List.mem_cons.mp hb with
          | inl hb1 => rw [ha1, hb1]
          | inr hb1 =>
              refine absurd ?_ hnodup.1
              have heq : hd.1 = b.1 := by rw [← ha1, hab]
              rw [heq]
              exact List.mem_map_of_mem Prod.fst hb1
      | inr ha1 =>
          cases List.mem_cons.mp hb with
          | inl hb1 =>
              refine absurd ?_ hnodup.1
              have heq : hd.1 = a.1 := by rw [← hb1, ← hab]
              rw [heq]
              exact List.mem_map_of_mem Prod.fst ha1
          | inr hb1 => exact ih hnodup.2 a ha1 b hb1 hab

/-- C8: the sweep deletes exactly the stored jobs whose age exceeds the
24h TTL, removing both the job record and its state record, so that a
subsequent Get returns null for them; every younger job (and its state
record) survives. Stored jobs carry the nonzero createdAt that StartJob
assigns, and storage keys are unique. -/
theorem cleanExpiredData_ttl (now : Nat) (s : Store)
    (hpos : ∀ p ∈ s.jobs, p.2.createdAt ≠ 0)
    (hkeys : (s.jobs.map Prod.fst).Nodup) :
    (∀ p ∈ s.jobs, EXPIRY_TIME < now - p.2.createdAt →
       getJobData (cleanExpiredData now s).1 p.1 = none ∧
       getJobState (cleanExpiredData now s).1 p.1 = none) ∧
    (∀ p ∈ s.jobs, now - p.2.createdAt ≤ EXPIRY_TIME →
       p ∈ (cleanExpiredData now s).1.jobs) ∧
    (∀ p ∈ (cleanExpiredData now s).1.jobs,
       p ∈ s.jobs ∧ now - p.2.createdAt ≤ EXPIRY_TIME) ∧
    (∀ q ∈ s.states, (∀ p ∈ s.jobs, p.1 = q.1 → now - p.2.createdAt ≤ EXPIRY_TIME) →
       q ∈ (cleanExpiredData now s).1.states) := by
  refine ⟨fun p hp hexp => ?_, fun p hp hyoung => ?_, fun p hp => ?_, fun q hq hyoung => ?_⟩
  · have hin : p.1 ∈ (s.jobs.filter (fun p => isExpired now p.2)).map Prod.fst :=
      List.mem_map_of_mem Prod.fst (List.mem_filter.mpr
        ⟨hp, decide_eq_true ⟨hpos p hp, hexp⟩⟩)
    exact ⟨alookup_filter_removed _ _ _ hin, alookup_filter_removed _ _ _ hin⟩
  · refine List.mem_filter.mpr ⟨hp, ?_⟩
    rw [Bool.not_eq_eq_eq_not, Bool.not_true, decide_eq_false_iff_not]
    intro hmem
    obtain ⟨q, hq, hq1⟩ := List.mem_map.mp hmem
    have hqj := List.mem_filter.mp hq
    have := keys_nodup_inj s.jobs hkeys q hqj.1 p hp hq1
    subst this
    exact absurd (of_decide_eq_true hqj.2).2 (not_lt.mpr hyoung)
  · have hf := List.mem_filter.mp hp
    refine ⟨hf.1, ?_⟩
    by_contra hlt
    have hin : p.1 ∈ (s.jobs.filter (fun p => isExpired now p.2)).map Prod.fst :=
      List.mem_map_of_mem Prod.fst (List.mem_filter.mpr
        ⟨hf.1, decide_eq_true ⟨hpos p hf.1, not_le.mp hlt⟩⟩)
    rw [Bool.not_eq_eq_eq_not, Bool.not_true, decide_eq_false_iff_not] at hf
    exact hf.2 hin
  · refine List.mem_filter.mpr ⟨hq, ?_⟩
    rw [Bool.not_eq_eq_eq_not, Bool.not_true, decide_eq_false_iff_not]
    intro hmem
    obtain ⟨p, hpf, hp1⟩ := List.mem_map.mp hmem
    have hpj := List.mem_filter.mp hpf
    exact absurd (of_decide_eq_true hpj.2).2
      (not_lt.mpr (hyoung p hpj.1 hp1))

/-- Concrete run exercising cleanExpiredData_ttl: one job created at
T = 1; a sweep at T + 24h + 1s removes the job and its state, and Get
returns null. -/
theorem cleanExpiredData_ttl_witness :
    ((∀ p ∈ (⟨[("jT", ⟨"jT", 1, .publish, testArticle, [.csdn], some 7, none⟩)],
        [("jT", stMap3)]⟩ : Store).jobs, p.2.createdAt ≠ 0) ∧
     EXPIRY_TIME < (1 + 24 * 60 * 60 * 1000 + 1000) - 1) ∧
    (getJobData (cleanExpiredData (1 + 24 * 60 * 60 * 1000 + 1000)
        ⟨[("jT", ⟨"jT", 1, .publish, testArticle, [.csdn], some 7, none⟩)],
         [("jT", stMap3)]⟩).1 "jT" = none ∧
     getJobState (cleanExpiredData (1 + 24 * 60 * 60 * 1000 + 1000)
        ⟨[("jT", ⟨"jT", 1, .publish, testArticle, [.csdn], some 7, none⟩)],
         [("jT", stMap3)]⟩).1 "jT" = none) :=
  ⟨⟨by decide, by decide⟩,
   (cleanExpiredData_ttl (1 + 24 * 60 * 60 * 1000 + 1000)
      ⟨[("jT", ⟨"jT", 1, .publish, testArticle, [.csdn], some 7, none⟩)],
       [("jT", stMap3)]⟩ (by decide) (by decide)).1
     ("jT", ⟨"jT", 1, .publish, testArticle, [.csdn], some 7, none⟩)
     (List.mem_singleton.mpr rfl) (by decide)⟩

/-! ## C7: capacity cap of 20 with oldest-first eviction -/

theorem alookup_none_iff {β : Type} (l : List (String × β)) (k : String) :
    alookup l k = none ↔ k ∉ l.map Prod.fst := by
  induction l with
  | nil => simp [alookup]
  | cons hd t ih =>
      simp only [alookup, List.map_cons, List.mem_cons]
      by_cases h : hd.1 = k
      · simp [h]
      · simp [h, ih, Ne.symm h]

theorem aset_of_not_mem {β : Type} (l : List (String × β)) (k : String) (v : β)
    (h : alookup l k = none) : aset l k v = l ++ [(k, v)] := by
  induction l with
  | nil => rfl
  | cons hd t ih =>
      simp only [alookup] at h
      by_cases hk : hd.1 = k
      · rw [if_pos hk] at h
        cases h
      · rw [if_neg hk] at h
        simp only [aset, hk, if_false, List.cons_append]
        rw [ih h]

/-- Distinctness of createdAt values, as a relation on stored entries. -/
def createdAtNe (a b : String × PublishJob) : Prop :=
  a.2.createdAt ≠ b.2.createdAt

theorem pairwise_createdAtNe_of_map_nodup (l : List (String × PublishJob))
    (h : (l.map (fun p => p.2.createdAt)).Nodup) : l.Pairwise createdAtNe := by
  induction l with
  | nil => exact List.Pairwise.nil
  | cons hd t ih =>
      rw [List.map_cons, List.nodup_cons] at h
      refine List.Pairwise.cons (fun b hb heq => ?_) (ih h.2)
      refine h.1 ?_
      rw [heq]
      exact List.mem_map_of_mem _ hb

/-- Core of the capacity property: on a store holding exactly 21 jobs
with unique keys and pairwise distinct createdAt values, the limiter
keeps exactly 20 jobs, evicting precisely the unique oldest job together
with its state record. -/
theorem limitStoredJobs_evicts (s : Store)
    (hkeys : (s.jobs.map Prod.fst).Nodup)
    (hdistinct : (s.jobs.map (fun p => p.2.createdAt)).Nodup)
    (hcount : s.jobs.length = MAX_STORED_JOBS + 1) :
    (limitStoredJobs s).jobs.length = MAX_STORED_JOBS ∧
    ∃ e ∈ s.jobs,
      (∀ f ∈ s.jobs, f ≠ e → e.2.createdAt < f.2.createdAt) ∧
      getJobData (limitStoredJobs s) e.1 = none ∧
      getJobState (limitStoredJobs s) e.1 = none ∧
      ∀ f ∈ s.jobs, f ≠ e → f ∈ (limitStoredJobs s).jobs := by
  have hperm : List.Perm (s.jobs.insertionSort jobNewer) s.jobs := List.perm_insertionSort _ _
  have hsorted : List.Sorted jobNewer (s.jobs.insertionSort jobNewer) :=
    List.sorted_insertionSort _ _
  have hSlen : (s.jobs.insertionSort jobNewer).length = MAX_STORED_JOBS + 1 :=
    hperm.length_eq.trans hcount
  have hgt : ¬ (s.jobs.insertionSort jobNewer).length ≤ MAX_STORED_JOBS := by
    rw [hSlen]
    exact Nat.not_succ_le_self _
  have hlimit : limitStoredJobs s =
      ⟨s.jobs.filter (fun p => !decide (p.1 ∈ evictIds s)),
       s.states.filter (fun p => !decide (p.1 ∈ evictIds s))⟩ := by
    unfold limitStoredJobs
    rw [if_neg hgt]
  have hdlen : ((s.jobs.insertionSort jobNewer).drop MAX_STORED_JOBS).length = 1 := by
    rw [List.length_drop, hSlen]
    omega
  obtain ⟨e, he⟩ := List.length_eq_one.mp hdlen
  have heid : evictIds s = [e.1] := by
    unfold evictIds
    rw [he]
    rfl
  have hedrop : e ∈ (s.jobs.insertionSort jobNewer).drop MAX_STORED_JOBS := by
    rw [he]
    exact List.mem_singleton.mpr rfl
  have heS : e ∈ s.jobs.insertionSort jobNewer := List.mem_of_mem_drop hedrop
  have hemem : e ∈ s.jobs := hperm.mem_iff.mp heS
  have hSca : ((s.jobs.insertionSort jobNewer).map (fun p => p.2.createdAt)).Nodup :=
    ((hperm.map _).nodup_iff).mpr hdistinct
  have hSpairne : (s.jobs.insertionSort jobNewer).Pairwise createdAtNe :=
    pairwise_createdAtNe_of_map_nodup _ hSca
  have hSkeys : ((s.jobs.insertionSort jobNewer).map Prod.fst).Nodup :=
    ((hperm.map _).nodup_iff).mpr hkeys
  have hsplitmem : ∀ f ∈ s.jobs.insertionSort jobNewer,
      f ∈ (s.jobs.insertionSort jobNewer).take MAX_STORED_JOBS ∨
      f ∈ (s.jobs.insertionSort jobNewer).drop MAX_STORED_JOBS := by
    intro f hf
    rw [← List.take_append_drop MAX_STORED_JOBS (s.jobs.insertionSort jobNewer)] at hf
    exact List.mem_append.mp hf
  have hmin : ∀ f ∈ s.jobs, f ≠ e → e.2.createdAt < f.2.createdAt := by
    intro f hf hfe
    cases hsplitmem f (hperm.mem_iff.mpr hf) with
    | inl htake =>
        have hle : jobNewer f e :=
          List.Pairwise.rel_of_mem_take_of_mem_drop hsorted htake hedrop
        have hne : createdAtNe f e :=
          List.Pairwise.rel_of_mem_take_of_mem_drop hSpairne htake hedrop
        exact Nat.lt_of_le_of_ne hle (Ne.symm hne)
    | inr hdrop2 =>
        rw [he] at hdrop2
        exact absurd (List.mem_singleton.mp hdrop2) hfe
  have hkept : ∀ f ∈ s.jobs, f ≠ e → f ∈ (limitStoredJobs s).jobs := by
    intro f hf hfe
    rw [hlimit]
    refine List.mem_filter.mpr ⟨hf, ?_⟩
    have hf1 : f.1 ≠ e.1 := fun h1 => hfe (keys_nodup_inj s.jobs hkeys f hf e hemem h1)
    rw [heid]
    simp [hf1]
  have hlen : (limitStoredJobs s).jobs.length = MAX_STORED_JOBS := by
    rw [hlimit]
    show (s.jobs.filter (fun p => !decide (p.1 ∈ evictIds s))).length = MAX_STORED_JOBS
    have hpermf : List.Perm (s.jobs.filter (fun p => !decide (p.1 ∈ evictIds s)))
        ((s.jobs.insertionSort jobNewer).filter (fun p => !decide (p.1 ∈ evictIds s))) :=
      (hperm.filter _).symm
    rw [hpermf.length_eq]
    have hsplit : (s.jobs.insertionSort jobNewer).filter
          (fun p => !decide (p.1 ∈ evictIds s)) =
        ((s.jobs.insertionSort jobNewer).take MAX_STORED_JOBS).filter
          (fun p => !decide (p.1 ∈ evictIds s)) ++
        ((s.jobs.insertionSort jobNewer).drop MAX_STORED_JOBS).filter
          (fun p => !decide (p.1 ∈ evictIds s)) := by
      rw [← List.filter_append, List.take_append_drop]
    have hdropf : ((s.jobs.insertionSort jobNewer).drop MAX_STORED_JOBS).filter
        (fun p => !decide (p.1 ∈ evictIds s)) = [] := by
      rw [he, heid]
      simp
    have htakef : ((s.jobs.insertionSort jobNewer).take MAX_STORED_JOBS).filter
        (fun p => !decide (p.1 ∈ evictIds s)) =
        (s.jobs.insertionSort jobNewer).take MAX_STORED_JOBS := by
      refine List.filter_eq_self.mpr (fun f hfT => ?_)
      have hfS := List.mem_of_mem_take hfT
      have hne : createdAtNe f e :=
        List.Pairwise.rel_of_mem_take_of_mem_drop hSpairne hfT hedrop
      have hfe : f ≠ e := fun h => hne (by rw [h])
      have hf1 : f.1 ≠ e.1 := fun h1 => hfe (keys_nodup_inj _ hSkeys f hfS e heS h1)
      rw [heid]
      simp [hf1]
    rw [hsplit, hdropf, htakef, List.append_nil, List.length_take, hSlen]
    omega
  refine ⟨hlen, e, hemem, hmin, ?_, ?_, hkept⟩
  · rw [hlimit]
    exact alookup_filter_removed _ _ _ (heid ▸ List.mem_singleton.mpr rfl)
  · rw [hlimit]
    exact alookup_filter_removed _ _ _ (heid ▸ List.mem_singleton.mpr rfl)

/-- C7: storing a job into a store already holding 20 jobs (nothing
expired, unique keys, distinct createdAt values, fresh jobId) leaves
exactly 20 jobs: precisely the unique oldest job is evicted, its job and
state records both removed, and every other job survives. -/
theorem storeJobData_capacity_eviction (now : Nat) (job : PublishJob) (s : Store)
    (hfresh : alookup s.jobs job.jobId = none)
    (hexp : ∀ p ∈ aset s.jobs job.jobId job, isExpired now p.2 = false)
    (hkeys0 : (s.jobs.map Prod.fst).Nodup)
    (hdistinct : ((aset s.jobs job.jobId job).map (fun p => p.2.createdAt)).Nodup)
    (hcount : s.jobs.length = MAX_STORED_JOBS) :
    (storeJobData now job s).jobs.length = MAX_STORED_JOBS ∧
    ∃ e ∈ aset s.jobs job.jobId job,
      (∀ f ∈ aset s.jobs job.jobId job, f ≠ e → e.2.createdAt < f.2.createdAt) ∧
      getJobData (storeJobData now job s) e.1 = none ∧
      getJobState (storeJobData now job s) e.1 = none ∧
      ∀ f ∈ aset s.jobs job.jobId job, f ≠ e → f ∈ (storeJobData now job s).jobs := by
  have haset := aset_of_not_mem s.jobs job.jobId job hfresh
  have hclean : storeJobData now job s =
      limitStoredJobs ⟨aset s.jobs job.jobId job, s.states⟩ := by
    unfold storeJobData
    rw [cleanExpiredData_id now ⟨aset s.jobs job.jobId job, s.states⟩ hexp]
  have hkeys1 : ((aset s.jobs job.jobId job).map Prod.fst).Nodup := by
    rw [haset, List.map_append, List.nodup_append]
    refine ⟨hkeys0, List.nodup_singleton _, fun a ha hb => ?_⟩
    simp only [List.map_cons, List.map_nil, List.mem_singleton] at hb
    subst hb
    exact (alookup_none_iff _ _).mp hfresh ha
  have hlen1 : (aset s.jobs job.jobId job).length = MAX_STORED_JOBS + 1 := by
    rw [haset, List.length_append, hcount]
    rfl
  have hmain := limitStoredJobs_evicts ⟨aset s.jobs job.jobId job, s.states⟩
    hkeys1 hdistinct hlen1
  rw [hclean]
  exact hmain

/-- One stored job entry for the capacity fixture. -/
def capEntry (name : String) (t : Nat) : String × PublishJob :=
  (name, ⟨name, t, .draft, testArticle, [.csdn], none, none⟩)

/-- A store already holding twenty jobs with distinct createdAt values. -/
def capStore : Store :=
  ⟨[capEntry "k01" 101, capEntry "k02" 102, capEntry "k03" 103, capEntry "k04" 104,
    capEntry "k05" 105, capEntry "k06" 106, capEntry "k07" 107, capEntry "k08" 108,
    capEntry "k09" 109, capEntry "k10" 110, capEntry "k11" 111, capEntry "k12" 112,
    capEntry "k13" 113, capEntry "k14" 114, capEntry "k15" 115, capEntry "k16" 116,
    capEntry "k17" 117, capEntry "k18" 118, capEntry "k19" 119, capEntry "k20" 120],
   [("k01", stMap3)]⟩

/-- The twenty-first job. -/
def capNewJob : PublishJob := ⟨"k21", 121, .draft, testArticle, [.csdn], none, none⟩

/-- Concrete run exercising storeJobData_capacity_eviction: storing a
21st job into a 20-job store. -/
theorem storeJobData_capacity_eviction_witness :
    (alookup capStore.jobs capNewJob.jobId = none ∧
     capStore.jobs.length = MAX_STORED_JOBS) ∧
    ((storeJobData 200 capNewJob capStore).jobs.length = MAX_STORED_JOBS ∧
     ∃ e ∈ aset capStore.jobs capNewJob.jobId capNewJob,
       (∀ f ∈ aset capStore.jobs capNewJob.jobId capNewJob, f ≠ e →
          e.2.createdAt < f.2.createdAt) ∧
       getJobData (storeJobData 200 capNewJob capStore) e.1 = none ∧
       getJobState (storeJobData 200 capNewJob capStore) e.1 = none ∧
       ∀ f ∈ aset capStore.jobs capNewJob.jobId capNewJob, f ≠ e →
         f ∈ (storeJobData 200 capNewJob capStore).jobs) :=
  ⟨⟨by decide, by decide⟩,
   storeJobData_capacity_eviction 200 capNewJob capStore
     (by decide) (by decide) (by decide) (by decide) (by decide)⟩

end Bawei
